import Mathlib

/-!
Verification of the DCSM serial-protocol client (src/dcsm.ts).

Modelling conventions, shared by all definitions below:
* a byte buffer is a `List Nat` of byte values;
* a channel-selection bit set is a function `Nat → Bool` (the observable
  behaviour of the bitset library's `get`), with `new BitSet()` being the
  all-false function and `set(idx, v)` setting index `idx` to the truthiness
  of `v`;
* fallible operations return `Except String`;
* the integer `timeout` budgets of `connect` are `Int` (JS numbers used as
  integers there).
-/

/-- The bitset library's `get` as used by the codec: returns the number 1 for
a set bit and 0 for a clear bit. -/
def bsGet (b : Bool) : Nat := if b then 1 else 0

/-- The byte-assembly expression of `bitsetToBuffer` (src/dcsm.ts lines 13-24):
eight single-bit contributions OR-ed together, most significant bit first. -/
def packByte8 (b0 b1 b2 b3 b4 b5 b6 b7 : Bool) : Nat :=
  0
  ||| (bsGet b0 * 0b10000000)
  ||| (bsGet b1 * 0b01000000)
  ||| (bsGet b2 * 0b00100000)
  ||| (bsGet b3 * 0b00010000)
  ||| (bsGet b4 * 0b00001000)
  ||| (bsGet b5 * 0b00000100)
  ||| (bsGet b6 * 0b00000010)
  ||| (bsGet b7 * 0b00000001)

/-- The byte written for bitset offset `o` by `bitsetToBuffer`: bits
`o, o+1, ..., o+7` of the source set, MSB first. -/
def packByte (S : Nat → Bool) (o : Nat) : Nat :=
  packByte8 (S o) (S (o + 1)) (S (o + 2)) (S (o + 3))
    (S (o + 4)) (S (o + 5)) (S (o + 6)) (S (o + 7))

/-- The write loop of `bitsetToBuffer` (src/dcsm.ts lines 9-25): for each
`i < byteCount`, write the packed byte for bitset offset `i*8` at buffer
position `offset + i`.  `remaining` counts the iterations still to run. -/
def btbLoop (S : Nat → Bool) (offset : Nat) (dest : List Nat) (i remaining : Nat) : List Nat :=
  match remaining with
  | 0 => dest
  | r + 1 => btbLoop S offset (dest.set (offset + i) (packByte S (i * 8))) (i + 1) r

/-- `bitsetToBuffer(destination, source, byteCount, offset)`
(src/dcsm.ts lines 4-26): bounds check, then the write loop. -/
def bitsetToBuffer (destination : List Nat) (source : Nat → Bool) (byteCount : Nat)
    (offset : Nat) : Except String (List Nat) :=
  if offset + byteCount > destination.length then
    Except.error "buffer overflow"
  else
    Except.ok (btbLoop source offset destination 0 byteCount)

/-- The bitset library's `set(idx, value)`: sets index `idx` to the truthiness
of the numeric argument `value`. -/
def bitsetSet (s : Nat → Bool) (idx val : Nat) : Nat → Bool :=
  fun x => if x = idx then val != 0 else s x

/-- The eight `set` calls performed by `bufferToBitset` for one byte
(src/dcsm.ts lines 41-48), in source order: index `base + k` receives
`byte &&& 2^(7-k)`. -/
def setByte (s : Nat → Bool) (base byte : Nat) : Nat → Bool :=
  bitsetSet (bitsetSet (bitsetSet (bitsetSet (bitsetSet (bitsetSet (bitsetSet (bitsetSet
    s base (byte &&& 0b10000000))
    (base + 1) (byte &&& 0b01000000))
    (base + 2) (byte &&& 0b00100000))
    (base + 3) (byte &&& 0b00010000))
    (base + 4) (byte &&& 0b00001000))
    (base + 5) (byte &&& 0b00000100))
    (base + 6) (byte &&& 0b00000010))
    (base + 7) (byte &&& 0b00000001)

/-- The read loop of `bufferToBitset` (src/dcsm.ts lines 35-49): for each
`i < byteCount`, read the byte at `offset + i` and set bits `i*8 .. i*8+7`. -/
def btbsLoop (source : List Nat) (offset : Nat) (s : Nat → Bool) (i remaining : Nat) :
    Nat → Bool :=
  match remaining with
  | 0 => s
  | r + 1 => btbsLoop source offset (setByte s (i * 8) (source.getD (offset + i) 0)) (i + 1) r

/-- `new BitSet()`: the empty set. -/
def emptyBitset : Nat → Bool := fun _ => false

/-- `bufferToBitset(source, byteCount, offset)` (src/dcsm.ts lines 28-52):
bounds check, then the read loop over a fresh empty set. -/
def bufferToBitset (source : List Nat) (byteCount : Nat) (offset : Nat) :
    Except String (Nat → Bool) :=
  if offset + byteCount > source.length then
    Except.error "buffer overflow"
  else
    Except.ok (btbsLoop source offset emptyBitset 0 byteCount)

/-- Extract the buffer from a successful codec result (empty on error);
used only to phrase theorems about the always-in-bounds 64-byte encoding. -/
def okBytes (e : Except String (List Nat)) : List Nat :=
  match e with
  | Except.ok l => l
  | Except.error _ => []

/-- The 64-byte wire encoding of a channel-selection set: `bitsetToBuffer`
into a fresh 64-byte buffer at offset 0. -/
def encode64 (S : Nat → Bool) : List Nat :=
  okBytes (bitsetToBuffer (List.replicate 64 0) S 64 0)

/-- The bit mask used by `bufferToBitset` for bit `m` of a byte
(`m = 0` is the most significant bit). -/
def maskW : Nat → Nat
  | 0 => 0b10000000
  | 1 => 0b01000000
  | 2 => 0b00100000
  | 3 => 0b00010000
  | 4 => 0b00001000
  | 5 => 0b00000100
  | 6 => 0b00000010
  | 7 => 0b00000001
  | _ => 0

/-- The singleton set containing channel index 0. -/
def single0 : Nat → Bool := fun i => i == 0

/-- The singleton set containing channel index 7. -/
def single7 : Nat → Bool := fun i => i == 7

/-! ### Message framing (src/dcsm.ts lines 184-196) -/

/-- Buffer.writeUInt16LE as bytes: low byte first. -/
def u16le (v : Nat) : List Nat := [v % 256, v / 256 % 256]

/-- Buffer.writeUInt8 as bytes. -/
def u8 (v : Nat) : List Nat := [v % 256]

/-- Buffer.readUInt16LE at an offset: low byte first. -/
def readUInt16LE (buf : List Nat) (offset : Nat) : Nat :=
  buf.getD offset 0 + buf.getD (offset + 1) 0 * 256

/-- sendMessageHeader (lines 184-191): one reserved 0x00 byte, the opcode as
16-bit little-endian, the payload length as 16-bit little-endian. -/
def sendMessageHeader (opcode msgLength : Nat) : List Nat :=
  0x00 :: (u16le opcode ++ u16le msgLength)

/-- The full framed outbound message written by sendMessage (lines 193-196):
the 5-byte header immediately followed by the payload. -/
def frame (opcode : Nat) (data : List Nat) : List Nat :=
  sendMessageHeader opcode data.length ++ data

/-! ### Response accumulation (src/dcsm.ts lines 214-220) -/

/-- Device.dataReceived buffer update: append the chunk to the accumulated
response, or initialize the response with the chunk. -/
def dataReceived (response : Option (List Nat)) (data : List Nat) : List Nat :=
  match response with
  | some r => r ++ data
  | none => data

/-- The successive accumulated buffers passed to the registered data callback
as the chunks of a sequence arrive, starting from a cleared response. -/
def accumulateInvocations (response : Option (List Nat)) (chunks : List (List Nat)) :
    List (List Nat) :=
  match chunks with
  | [] => []
  | c :: cs =>
    dataReceived response c :: accumulateInvocations (some (dataReceived response c)) cs

/-- getUniverseData completion predicate (line 284): the accumulated buffer
has reached 512 bytes. -/
def guPredicate (data : List Nat) : Bool := decide (512 ≤ data.length)

/-- The accumulated buffers with which resolve is invoked over a chunk
sequence; the pending promise takes the value of the first of them. -/
def resolveCalls (pred : List Nat → Bool) (chunks : List (List Nat)) : List (List Nat) :=
  (accumulateInvocations none chunks).filter pred

/-! ### getMaskUniverses response handler (src/dcsm.ts lines 324-350) -/

/-- One invocation of the getMaskUniverses data callback on the accumulated
buffer: updates the captured universeCount once two bytes are available, and
resolves with the parsed universe list once the buffer holds the two count
bytes plus two bytes per universe.  The first component is the updated
captured count, the second the resolve payload (none = keep waiting). -/
def gmuHandler (universeCount : Nat) (data : List Nat) : Nat × Option (List Nat) :=
  let universeCount := if 2 ≤ data.length then readUInt16LE data 0 else universeCount
  if 2 + universeCount * 2 ≤ data.length then
    (universeCount,
      some ((List.range universeCount).map (fun i => readUInt16LE data (2 + i * 2))))
  else
    (universeCount, none)

/-! ### identify response handler (src/dcsm.ts lines 226-251)

JSON.parse is the JavaScript runtime parser, supplied here as an oracle
parameter returning the parsed record, or none when parsing throws or the
parsed value is falsy.  Only the version field of the record influences
control flow, so the record is modelled by that field. -/

/-- The parsed identify record, reduced to the field inspected by the code. -/
structure IdentifyRecord where
  version : Option String
deriving DecidableEq

/-- JS truthiness of record.version: absent or empty string is falsy. -/
def versionTruthy (r : IdentifyRecord) : Bool :=
  match r.version with
  | some s => s != ""
  | none => false

/-- A settle attempt of the identify promise. -/
inductive SettleEvent where
  | resolved (r : IdentifyRecord)
  | rejected (msg : String)
deriving DecidableEq

/-- JS String.prototype.endsWith. -/
def jsEndsWith (s search : String) : Bool := search.data.isSuffixOf s.data

/-- The settle attempts made by one invocation of the identify data callback
(lines 230-247) on the accumulated text.  Before the double line-break there
are none.  With it: a parse failure rejects, and the subsequent populateData
call throws on the undefined record so resolve is never reached; a parsed
record with falsy version rejects and then also calls resolve, which is a
no-op on the already-settled promise; a parsed record with truthy version
resolves. -/
def identifySettles (jsonParse : String → Option IdentifyRecord) (text : String) :
    List SettleEvent :=
  if jsEndsWith text "\n\n" then
    match jsonParse text with
    | none => [SettleEvent.rejected "invalid identify response"]
    | some r =>
      if versionTruthy r then
        [SettleEvent.resolved r]
      else
        [SettleEvent.rejected "invalid identify response", SettleEvent.resolved r]
  else
    []

/-- A promise settles with its first resolve or reject. -/
def promiseOutcome (settles : List SettleEvent) : Option SettleEvent := settles.head?

/-- The well-formed identify response text of the spec example. -/
def goodIdentifyText : String := "\x7b\"version\":\"1.0\"\x7d\n\n"

/-- A concrete JSON.parse oracle agreeing with the JavaScript parser on the
two spec examples: the well-formed text parses to a record with version
"1.0", and the text of the malformed example fails to parse. -/
def jsonParseSample (s : String) : Option IdentifyRecord :=
  if s = goodIdentifyText then some { version := some "1.0" } else none

/-! ### connect retry (src/dcsm.ts lines 152-182) -/

/-- Effects of one invocation of the connect error handler. -/
structure ConnectErrorEffects where
  rejectsConnectionFailed : Bool
  schedulesRetry : Bool
  retryBudget : Int
deriving DecidableEq

/-- The connect error handler (lines 164-172): rejects with the connection
failed error when the budget is exhausted, and in all cases (the reject is
not followed by a return) schedules a retry after a 100 ms pause with the
budget reduced by 100. -/
def connectErrorHandler (timeout : Int) : ConnectErrorEffects :=
  { rejectsConnectionFailed := decide (timeout ≤ 0)
  , schedulesRetry := true
  , retryBudget := timeout - 100 }

/-- Budgets of the successive open attempts against an endpoint whose open
always reports an error, up to and including the first attempt on which the
error handler rejects the promise.  (The code schedules yet more attempts
after that one; the promise is already settled, so this list stops there.) -/
def connectAttemptBudgets (timeout : Int) : List Int :=
  if timeout ≤ 0 then [timeout]
  else timeout :: connectAttemptBudgets (timeout - 100)
termination_by timeout.toNat
decreasing_by simp_wf; omega

/-! ### Operation Catalog side-effect traces

Each catalog method is modelled by the ordered list of device-level side
effects it performs: clearing the response buffer, registering the data
callback (onData), and sending one framed message (opcode and payload; the
framed bytes are given by frame).  Payload bytes follow the source body
construction; buffers fully covered by consecutive writes are written as
concatenations. -/

/-- A device-level side effect of a catalog method. -/
inductive DeviceAction where
  | clearResponse
  | registerCallback
  | send (opcode : Nat) (payload : List Nat)
deriving DecidableEq

/-- identify (lines 226-251). -/
def identifyTrace : List DeviceAction :=
  [DeviceAction.clearResponse, DeviceAction.registerCallback, DeviceAction.send 0x0001 []]

/-- setUniverseData (lines 253-260). -/
def setUniverseDataTrace (univ : Nat) (data : List Nat) : List DeviceAction :=
  [DeviceAction.clearResponse, DeviceAction.send 0x0002 (u16le univ ++ data)]

/-- One universe16 + address16 + value8 entry of setAddressValues. -/
structure AddressValuePairRec where
  univ : Nat
  address : Nat
  value : Nat

/-- setAddressValues (lines 262-277): the body is built first, then the
response is cleared, then the message is sent. -/
def setAddressValuesTrace (pairs : List AddressValuePairRec) : List DeviceAction :=
  [DeviceAction.clearResponse,
   DeviceAction.send 0x0003
     ((pairs.map (fun pair => u16le pair.univ ++ u16le pair.address ++ u8 pair.value)).flatten)]

/-- getUniverseData (lines 279-294). -/
def getUniverseDataTrace (univ : Nat) : List DeviceAction :=
  [DeviceAction.clearResponse, DeviceAction.registerCallback,
   DeviceAction.send 0x0004 (u16le univ)]

/-- setFramerate (lines 296-301): no clearResponse in the source. -/
def setFramerateTrace (framerate : Nat) : List DeviceAction :=
  [DeviceAction.send 0x0005 (u8 framerate)]

/-- getFramerate (lines 303-315). -/
def getFramerateTrace : List DeviceAction :=
  [DeviceAction.clearResponse, DeviceAction.registerCallback, DeviceAction.send 0x0006 []]

/-- createMaskUniverse (lines 317-322): no clearResponse in the source. -/
def createMaskUniverseTrace (univ : Nat) : List DeviceAction :=
  [DeviceAction.send 0x0007 (u16le univ)]

/-- getMaskUniverses (lines 324-350). -/
def getMaskUniversesTrace : List DeviceAction :=
  [DeviceAction.clearResponse, DeviceAction.registerCallback, DeviceAction.send 0x0008 []]

/-- deleteMaskUniverse (lines 352-357). -/
def deleteMaskUniverseTrace (univ : Nat) : List DeviceAction :=
  [DeviceAction.send 0x0009 (u16le univ)]

/-- setMaskUniverseData (lines 359-366): universe16, then the 64 mask bytes
written by bitsetToBuffer at offset 2 (encode64 gives those same bytes), then
the data copied at offset 66 into the 578-byte body, zero-padded when shorter
than 512 bytes. -/
def setMaskUniverseDataTrace (univ : Nat) (mask : Nat → Bool) (data : List Nat) :
    List DeviceAction :=
  [DeviceAction.send 0x000A
    (u16le univ ++ encode64 mask ++ (data.take 512 ++ List.replicate (512 - data.length) 0))]

/-- One address16 + masking8 + value8 entry of setMaskAddressValues. -/
structure LocalMaskAVRec where
  address : Nat
  masking : Bool
  value : Nat

/-- setMaskAddressValues (lines 368-381): no clearResponse in the source. -/
def setMaskAddressValuesTrace (univ : Nat) (pairs : List LocalMaskAVRec) :
    List DeviceAction :=
  [DeviceAction.send 0x000B
    (u16le univ ++
      (pairs.map (fun p =>
        u16le p.address ++ u8 (if p.masking then 1 else 0) ++ u8 p.value)).flatten)]

/-- getMaskUniverseData (lines 383-401). -/
def getMaskUniverseDataTrace (univ : Nat) : List DeviceAction :=
  [DeviceAction.clearResponse, DeviceAction.registerCallback,
   DeviceAction.send 0x000C (u16le univ)]

/-- clearMaskUniverse (lines 403-408): no clearResponse in the source. -/
def clearMaskUniverseTrace (univ : Nat) : List DeviceAction :=
  [DeviceAction.send 0x000D (u16le univ)]

/-- A patch mapping record. -/
structure PatchRec where
  inputUniverse : Nat
  outputUniverse : Nat
  maskUniverse : Nat

/-- patch (lines 410-417): no clearResponse in the source. -/
def patchTrace (p : PatchRec) : List DeviceAction :=
  [DeviceAction.send 0x000E
    (u16le p.inputUniverse ++ u16le p.outputUniverse ++ u16le p.maskUniverse)]

/-- unpatch (lines 419-424): no clearResponse in the source. -/
def unpatchTrace (outputUniverse : Nat) : List DeviceAction :=
  [DeviceAction.send 0x000F (u16le outputUniverse)]

/-- getPatches (lines 426-456). -/
def getPatchesTrace : List DeviceAction :=
  [DeviceAction.clearResponse, DeviceAction.registerCallback, DeviceAction.send 0x0010 []]

/-- copyUniverse (lines 458-464): no clearResponse in the source. -/
def copyUniverseTrace (sourceUniverse destinationUniverse : Nat) : List DeviceAction :=
  [DeviceAction.send 0x0011 (u16le sourceUniverse ++ u16le destinationUniverse)]

/-- setAddressesToValue (lines 466-473): no clearResponse in the source; the
64 mask bytes are written by bitsetToBuffer at offset 3. -/
def setAddressesToValueTrace (univ value : Nat) (mask : Nat → Bool) : List DeviceAction :=
  [DeviceAction.send 0x0012 (u16le univ ++ u8 value ++ encode64 mask)]

/-- setMaskAddressesToValue (lines 475-482): same body and opcode as
setAddressesToValue; no clearResponse in the source. -/
def setMaskAddressesToValueTrace (univ value : Nat) (mask : Nat → Bool) :
    List DeviceAction :=
  [DeviceAction.send 0x0012 (u16le univ ++ u8 value ++ encode64 mask)]

/-- listPorts (lines 484-513). -/
def listPortsTrace : List DeviceAction :=
  [DeviceAction.clearResponse, DeviceAction.registerCallback, DeviceAction.send 0x0010 []]

/-- A universe16 + address16 request entry. -/
structure AddressPackRec where
  univ : Nat
  address : Nat

/-- The N x (universe16 + address16) request buffer built by
getValuesByAddress (lines 525-532). -/
def gvbaBody (addresses : List AddressPackRec) : List Nat :=
  (addresses.map (fun a => u16le a.univ ++ u16le a.address)).flatten

/-- getValuesByAddress (lines 515-536): the request buffer is built, but
line 534 calls sendMessage with opcode 0x0010 and no payload argument, so the
framed message carries an empty payload. -/
def getValuesByAddressTrace (addresses : List AddressPackRec) : List DeviceAction :=
  [DeviceAction.clearResponse, DeviceAction.registerCallback, DeviceAction.send 0x0010 []]

/-- The N x (universe16 + address16) request buffer built by
getMaskValuesByAddress (lines 559-566). -/
def gmvbaBody (addresses : List AddressPackRec) : List Nat :=
  (addresses.map (fun a => u16le a.univ ++ u16le a.address)).flatten

/-- getMaskValuesByAddress (lines 538-570): the request buffer is built, but
line 568 calls sendMessage with opcode 0x0010 and no payload argument, so the
framed message carries an empty payload. -/
def getMaskValuesByAddressTrace (addresses : List AddressPackRec) : List DeviceAction :=
  [DeviceAction.clearResponse, DeviceAction.registerCallback, DeviceAction.send 0x0010 []]

/-! ### Helper lemmas about the codec loops -/

theorem getD_set_eq_ite (l : List Nat) (n p a : Nat) :
    (l.set n a).getD p 0 = if p = n ∧ n < l.length then a else l.getD p 0 := by
  induction l generalizing n p with
  | nil => simp
  | cons hd tl ih =>
    cases n with
    | zero =>
      cases p with
      | zero => simp
      | succ q => simp [List.getD]
    | succ m =>
      cases p with
      | zero => simp [List.getD]
      | succ q =>
        simp only [List.set, List.getD_cons_succ, List.length_cons, ih]
        by_cases h : q = m ∧ m < tl.length
        · rw [if_pos h, if_pos ⟨by omega, by omega⟩]
        · rw [if_neg h, if_neg (by omega)]

theorem btbLoop_length (S : Nat → Bool) (offset : Nat) :
    ∀ (remaining i : Nat) (dest : List Nat),
      (btbLoop S offset dest i remaining).length = dest.length := by
  intro remaining
  induction remaining with
  | zero => intro i dest; rfl
  | succ r ih => intro i dest; rw [btbLoop, ih]; simp

theorem btbLoop_getD (S : Nat → Bool) (offset : Nat) :
    ∀ (remaining i : Nat) (dest : List Nat), offset + i + remaining ≤ dest.length →
      ∀ p, (btbLoop S offset dest i remaining).getD p 0 =
        if offset + i ≤ p ∧ p < offset + i + remaining then
          packByte S ((p - offset) * 8)
        else dest.getD p 0 := by
  intro remaining
  induction remaining with
  | zero =>
    intro i dest _ p
    rw [btbLoop, if_neg (by omega)]
  | succ r ih =>
    intro i dest h p
    rw [btbLoop]
    rw [ih (i + 1) _ (by simpa using by omega)]
    rw [getD_set_eq_ite]
    by_cases h1 : offset + (i + 1) ≤ p ∧ p < offset + (i + 1) + r
    · rw [if_pos h1, if_pos (by omega)]
    · rw [if_neg h1]
      by_cases h2 : p = offset + i
      · rw [if_pos ⟨h2, by omega⟩, if_pos (by omega), h2]
        congr 1
        omega
      · rw [if_neg (by omega), if_neg (by omega)]

theorem encode64_eq (S : Nat → Bool) :
    encode64 S = btbLoop S 0 (List.replicate 64 0) 0 64 := by
  unfold encode64 bitsetToBuffer
  rw [if_neg (by simp only [List.length_replicate]; omega)]
  simp only [okBytes]

theorem encode64_length (S : Nat → Bool) : (encode64 S).length = 64 := by
  rw [encode64_eq, btbLoop_length, List.length_replicate]

theorem encode64_getD (S : Nat → Bool) (j : Nat) (hj : j < 64) :
    (encode64 S).getD j 0 = packByte S (j * 8) := by
  rw [encode64_eq]
  rw [btbLoop_getD S 0 64 0 (List.replicate 64 0) (by simp only [List.length_replicate]; omega) j]
  rw [if_pos ⟨by omega, by omega⟩]
  simp

theorem setByte_apply (s : Nat → Bool) (base byte x : Nat) :
    setByte s base byte x =
      if x = base then (byte &&& 0b10000000) != 0
      else if x = base + 1 then (byte &&& 0b01000000) != 0
      else if x = base + 2 then (byte &&& 0b00100000) != 0
      else if x = base + 3 then (byte &&& 0b00010000) != 0
      else if x = base + 4 then (byte &&& 0b00001000) != 0
      else if x = base + 5 then (byte &&& 0b00000100) != 0
      else if x = base + 6 then (byte &&& 0b00000010) != 0
      else if x = base + 7 then (byte &&& 0b00000001) != 0
      else s x := by
  simp only [setByte, bitsetSet]
  split_ifs <;> first | rfl | omega

theorem btbsLoop_apply (src : List Nat) (offset : Nat) :
    ∀ (remaining i : Nat) (s : Nat → Bool) (x : Nat),
      btbsLoop src offset s i remaining x =
        if i * 8 ≤ x ∧ x < (i + remaining) * 8 then
          ((src.getD (offset + x / 8) 0) &&& maskW (x % 8)) != 0
        else s x := by
  intro remaining
  induction remaining with
  | zero =>
    intro i s x
    rw [btbsLoop, if_neg (by omega)]
  | succ r ih =>
    intro i s x
    rw [btbsLoop]
    rw [ih (i + 1)]
    by_cases h1 : (i + 1) * 8 ≤ x ∧ x < (i + 1 + r) * 8
    · rw [if_pos h1, if_pos (show i * 8 ≤ x ∧ x < (i + (r + 1)) * 8 from by omega)]
    · rw [if_neg h1]
      rw [setByte_apply]
      by_cases h0 : i * 8 ≤ x ∧ x < i * 8 + 8
      · have hdiv : x / 8 = i := by omega
        have hmod8 : x % 8 = x - i * 8 := by omega
        rw [if_pos (show i * 8 ≤ x ∧ x < (i + (r + 1)) * 8 from by omega), hdiv, hmod8]
        have hcase : x - i * 8 = 0 ∨ x - i * 8 = 1 ∨ x - i * 8 = 2 ∨ x - i * 8 = 3 ∨
            x - i * 8 = 4 ∨ x - i * 8 = 5 ∨ x - i * 8 = 6 ∨ x - i * 8 = 7 := by omega
        rcases hcase with h | h | h | h | h | h | h | h
        · rw [if_pos (show x = i * 8 from by omega), h]; rfl
        · rw [if_neg (show ¬(x = i * 8) from by omega),
            if_pos (show x = i * 8 + 1 from by omega), h]; rfl
        · rw [if_neg (show ¬(x = i * 8) from by omega),
            if_neg (show ¬(x = i * 8 + 1) from by omega),
            if_pos (show x = i * 8 + 2 from by omega), h]; rfl
        · rw [if_neg (show ¬(x = i * 8) from by omega),
            if_neg (show ¬(x = i * 8 + 1) from by omega),
            if_neg (show ¬(x = i * 8 + 2) from by omega),
            if_pos (show x = i * 8 + 3 from by omega), h]; rfl
        · rw [if_neg (show ¬(x = i * 8) from by omega),
            if_neg (show ¬(x = i * 8 + 1) from by omega),
            if_neg (show ¬(x = i * 8 + 2) from by omega),
            if_neg (show ¬(x = i * 8 + 3) from by omega),
            if_pos (show x = i * 8 + 4 from by omega), h]; rfl
        · rw [if_neg (show ¬(x = i * 8) from by omega),
            if_neg (show ¬(x = i * 8 + 1) from by omega),
            if_neg (show ¬(x = i * 8 + 2) from by omega),
            if_neg (show ¬(x = i * 8 + 3) from by omega),
            if_neg (show ¬(x = i * 8 + 4) from by omega),
            if_pos (show x = i * 8 + 5 from by omega), h]; rfl
        · rw [if_neg (show ¬(x = i * 8) from by omega),
            if_neg (show ¬(x = i * 8 + 1) from by omega),
            if_neg (show ¬(x = i * 8 + 2) from by omega),
            if_neg (show ¬(x = i * 8 + 3) from by omega),
            if_neg (show ¬(x = i * 8 + 4) from by omega),
            if_neg (show ¬(x = i * 8 + 5) from by omega),
            if_pos (show x = i * 8 + 6 from by omega), h]; rfl
        · rw [if_neg (show ¬(x = i * 8) from by omega),
            if_neg (show ¬(x = i * 8 + 1) from by omega),
            if_neg (show ¬(x = i * 8 + 2) from by omega),
            if_neg (show ¬(x = i * 8 + 3) from by omega),
            if_neg (show ¬(x = i * 8 + 4) from by omega),
            if_neg (show ¬(x = i * 8 + 5) from by omega),
            if_neg (show ¬(x = i * 8 + 6) from by omega),
            if_pos (show x = i * 8 + 7 from by omega), h]; rfl
      · rw [if_neg (show ¬(i * 8 ≤ x ∧ x < (i + (r + 1)) * 8) from by omega),
          if_neg (show ¬(x = i * 8) from by omega),
          if_neg (show ¬(x = i * 8 + 1) from by omega),
          if_neg (show ¬(x = i * 8 + 2) from by omega),
          if_neg (show ¬(x = i * 8 + 3) from by omega),
          if_neg (show ¬(x = i * 8 + 4) from by omega),
          if_neg (show ¬(x = i * 8 + 5) from by omega),
          if_neg (show ¬(x = i * 8 + 6) from by omega),
          if_neg (show ¬(x = i * 8 + 7) from by omega)]

theorem packByte8_and (b0 b1 b2 b3 b4 b5 b6 b7 : Bool) :
    ((packByte8 b0 b1 b2 b3 b4 b5 b6 b7 &&& 0b10000000) != 0) = b0 ∧
    ((packByte8 b0 b1 b2 b3 b4 b5 b6 b7 &&& 0b01000000) != 0) = b1 ∧
    ((packByte8 b0 b1 b2 b3 b4 b5 b6 b7 &&& 0b00100000) != 0) = b2 ∧
    ((packByte8 b0 b1 b2 b3 b4 b5 b6 b7 &&& 0b00010000) != 0) = b3 ∧
    ((packByte8 b0 b1 b2 b3 b4 b5 b6 b7 &&& 0b00001000) != 0) = b4 ∧
    ((packByte8 b0 b1 b2 b3 b4 b5 b6 b7 &&& 0b00000100) != 0) = b5 ∧
    ((packByte8 b0 b1 b2 b3 b4 b5 b6 b7 &&& 0b00000010) != 0) = b6 ∧
    ((packByte8 b0 b1 b2 b3 b4 b5 b6 b7 &&& 0b00000001) != 0) = b7 := by
  revert b0 b1 b2 b3 b4 b5 b6 b7
  decide

theorem packByte8_testBit (b0 b1 b2 b3 b4 b5 b6 b7 : Bool) :
    (packByte8 b0 b1 b2 b3 b4 b5 b6 b7).testBit 7 = b0 ∧
    (packByte8 b0 b1 b2 b3 b4 b5 b6 b7).testBit 6 = b1 ∧
    (packByte8 b0 b1 b2 b3 b4 b5 b6 b7).testBit 5 = b2 ∧
    (packByte8 b0 b1 b2 b3 b4 b5 b6 b7).testBit 4 = b3 ∧
    (packByte8 b0 b1 b2 b3 b4 b5 b6 b7).testBit 3 = b4 ∧
    (packByte8 b0 b1 b2 b3 b4 b5 b6 b7).testBit 2 = b5 ∧
    (packByte8 b0 b1 b2 b3 b4 b5 b6 b7).testBit 1 = b6 ∧
    (packByte8 b0 b1 b2 b3 b4 b5 b6 b7).testBit 0 = b7 := by
  revert b0 b1 b2 b3 b4 b5 b6 b7
  decide

/-! ### Claim theorems -/

/-- C8: both codec directions fail with the bounds error exactly when
offset + byteCount exceeds the buffer length; the check precedes the loops,
so in the failing case no partial output exists, and on success the
destination keeps its length (no silent truncation). -/
theorem codec_bounds_check (destination src : List Nat) (S : Nat → Bool)
    (byteCount offset : Nat) :
    (bitsetToBuffer destination S byteCount offset = Except.error "buffer overflow" ↔
      destination.length < offset + byteCount) ∧
    (bufferToBitset src byteCount offset = Except.error "buffer overflow" ↔
      src.length < offset + byteCount) ∧
    (∀ l, bitsetToBuffer destination S byteCount offset = Except.ok l →
      l.length = destination.length) := by
  refine ⟨?_, ?_, ?_⟩
  · unfold bitsetToBuffer
    by_cases h : offset + byteCount > destination.length
    · rw [if_pos h]
      simp only [true_iff]
      omega
    · rw [if_neg h]
      constructor
      · intro hc
        cases hc
      · intro hc
        omega
  · unfold bufferToBitset
    by_cases h : offset + byteCount > src.length
    · rw [if_pos h]
      simp only [true_iff]
      omega
    · rw [if_neg h]
      constructor
      · intro hc
        cases hc
      · intro hc
        omega
  · intro l hl
    unfold bitsetToBuffer at hl
    by_cases h : offset + byteCount > destination.length
    · rw [if_pos h] at hl
      cases hl
    · rw [if_neg h] at hl
      injection hl with h2
      rw [← h2]
      exact btbLoop_length S offset byteCount 0 destination

/-- Witness for the bounds-check theorem: a 2-byte conversion into a 1-byte
buffer fails, and the in-bounds 64-byte encoding keeps the buffer length. -/
theorem codec_bounds_check_w :
    bitsetToBuffer [0] single0 2 0 = Except.error "buffer overflow" ∧
    (∀ l, bitsetToBuffer (List.replicate 64 0) single0 64 0 = Except.ok l →
      l.length = 64) := by
  constructor
  · exact (codec_bounds_check [0] [] single0 2 0).1.mpr (by simp)
  · intro l hl
    have h := (codec_bounds_check (List.replicate 64 0) [] single0 64 0).2.2 l hl
    simpa using h

/-- C1: decoding the 64-byte encoding of a channel-selection set over the
indices 0..511 yields the set again. -/
theorem mask_codec_roundtrip (S : Nat → Bool) (hS : ∀ i, 512 ≤ i → S i = false) :
    ∃ dec, bufferToBitset (encode64 S) 64 0 = Except.ok dec ∧ dec = S := by
  refine ⟨btbsLoop (encode64 S) 0 emptyBitset 0 64, ?_, ?_⟩
  · unfold bufferToBitset
    rw [if_neg (by rw [encode64_length]; omega)]
  · funext x
    rw [btbsLoop_apply]
    by_cases hx : x < 512
    · rw [if_pos (show 0 * 8 ≤ x ∧ x < (0 + 64) * 8 from by omega)]
      simp only [Nat.zero_add]
      rw [encode64_getD S (x / 8) (by omega)]
      obtain ⟨p0, p1, p2, p3, p4, p5, p6, p7⟩ :=
        packByte8_and (S (x / 8 * 8)) (S (x / 8 * 8 + 1)) (S (x / 8 * 8 + 2))
          (S (x / 8 * 8 + 3)) (S (x / 8 * 8 + 4)) (S (x / 8 * 8 + 5))
          (S (x / 8 * 8 + 6)) (S (x / 8 * 8 + 7))
      have hcase : x % 8 = 0 ∨ x % 8 = 1 ∨ x % 8 = 2 ∨ x % 8 = 3 ∨
          x % 8 = 4 ∨ x % 8 = 5 ∨ x % 8 = 6 ∨ x % 8 = 7 := by omega
      rcases hcase with h | h | h | h | h | h | h | h
      · rw [h, show maskW 0 = 0b10000000 from rfl, packByte, p0]
        congr 1
        omega
      · rw [h, show maskW 1 = 0b01000000 from rfl, packByte, p1]
        congr 1
        omega
      · rw [h, show maskW 2 = 0b00100000 from rfl, packByte, p2]
        congr 1
        omega
      · rw [h, show maskW 3 = 0b00010000 from rfl, packByte, p3]
        congr 1
        omega
      · rw [h, show maskW 4 = 0b00001000 from rfl, packByte, p4]
        congr 1
        omega
      · rw [h, show maskW 5 = 0b00000100 from rfl, packByte, p5]
        congr 1
        omega
      · rw [h, show maskW 6 = 0b00000010 from rfl, packByte, p6]
        congr 1
        omega
      · rw [h, show maskW 7 = 0b00000001 from rfl, packByte, p7]
        congr 1
        omega
    · rw [if_neg (by omega)]
      rw [hS x (by omega)]
      rfl

/-- Witness for the round-trip theorem at the singleton set containing 0. -/
theorem mask_codec_roundtrip_w :
    (∀ i, 512 ≤ i → single0 i = false) ∧
    (∃ dec, bufferToBitset (encode64 single0) 64 0 = Except.ok dec ∧ dec = single0) := by
  have h : ∀ i, 512 ≤ i → single0 i = false := by
    intro i hi
    simp only [single0, beq_eq_false_iff_ne, ne_eq]
    omega
  exact ⟨h, mask_codec_roundtrip single0 h⟩

/-- C2: byte i/8 of the 64-byte encoding carries channel i at bit position
7 - (i mod 8): that bit is set iff i is in the set; the singleton set with 0
encodes with byte 0 = 0b10000000, and the singleton set with 7 encodes with
byte 0 = 0b00000001. -/
theorem mask_bit_layout :
    (∀ (S : Nat → Bool) (i : Nat), i < 512 →
      ((encode64 S).getD (i / 8) 0).testBit (7 - i % 8) = S i) ∧
    (encode64 single0).getD 0 0 = 0b10000000 ∧
    (encode64 single7).getD 0 0 = 0b00000001 := by
  refine ⟨?_, ?_, ?_⟩
  · intro S i hi
    rw [encode64_getD S (i / 8) (by omega)]
    obtain ⟨q0, q1, q2, q3, q4, q5, q6, q7⟩ :=
      packByte8_testBit (S (i / 8 * 8)) (S (i / 8 * 8 + 1)) (S (i / 8 * 8 + 2))
        (S (i / 8 * 8 + 3)) (S (i / 8 * 8 + 4)) (S (i / 8 * 8 + 5))
        (S (i / 8 * 8 + 6)) (S (i / 8 * 8 + 7))
    have hcase : i % 8 = 0 ∨ i % 8 = 1 ∨ i % 8 = 2 ∨ i % 8 = 3 ∨
        i % 8 = 4 ∨ i % 8 = 5 ∨ i % 8 = 6 ∨ i % 8 = 7 := by omega
    rcases hcase with h | h | h | h | h | h | h | h
    · rw [h, show (7:Nat) - 0 = 7 from rfl, packByte, q0]
      congr 1
      omega
    · rw [h, show (7:Nat) - 1 = 6 from rfl, packByte, q1]
      congr 1
      omega
    · rw [h, show (7:Nat) - 2 = 5 from rfl, packByte, q2]
      congr 1
      omega
    · rw [h, show (7:Nat) - 3 = 4 from rfl, packByte, q3]
      congr 1
      omega
    · rw [h, show (7:Nat) - 4 = 3 from rfl, packByte, q4]
      congr 1
      omega
    · rw [h, show (7:Nat) - 5 = 2 from rfl, packByte, q5]
      congr 1
      omega
    · rw [h, show (7:Nat) - 6 = 1 from rfl, packByte, q6]
      congr 1
      omega
    · rw [h, show (7:Nat) - 7 = 0 from rfl, packByte, q7]
      congr 1
      omega
  · rw [encode64_getD single0 0 (by omega)]
    decide
  · rw [encode64_getD single7 0 (by omega)]
    decide

/-- Witness for the bit-layout theorem at channel 0 of the singleton set. -/
theorem mask_bit_layout_w :
    (0:Nat) < 512 ∧
    ((encode64 single0).getD (0 / 8) 0).testBit (7 - 0 % 8) = single0 0 :=
  ⟨by omega, mask_bit_layout.1 single0 0 (by omega)⟩

/-- C3: the framed outbound message is exactly 5 + len(payload) bytes: one
reserved 0x00 byte, the opcode little-endian in bytes 1-2, the payload length
little-endian in bytes 3-4, then the payload; frame(0x0004, []) is exactly
[0x00,0x04,0x00,0x00,0x00], and a 514-byte payload puts bytes 0x02 0x02 in
the header length field. -/
theorem frame_layout :
    (∀ (opcode : Nat) (data : List Nat), (frame opcode data).length = 5 + data.length) ∧
    (∀ (opcode : Nat) (data : List Nat), (frame opcode data).getD 0 0 = 0x00) ∧
    (∀ (opcode : Nat) (data : List Nat), opcode < 65536 →
      readUInt16LE (frame opcode data) 1 = opcode) ∧
    (∀ (opcode : Nat) (data : List Nat), data.length < 65536 →
      readUInt16LE (frame opcode data) 3 = data.length) ∧
    (∀ (opcode : Nat) (data : List Nat), (frame opcode data).drop 5 = data) ∧
    frame 0x0004 [] = [0x00, 0x04, 0x00, 0x00, 0x00] ∧
    (∀ data : List Nat, data.length = 514 →
      (frame 0x0002 data).take 5 = [0x00, 0x02, 0x00, 0x02, 0x02]) := by
  refine ⟨?_, ?_, ?_, ?_, ?_, ?_, ?_⟩
  · intro opcode data
    simp [frame, sendMessageHeader, u16le]
    omega
  · intro opcode data
    simp [frame, sendMessageHeader]
  · intro opcode data h
    simp [frame, sendMessageHeader, u16le, readUInt16LE]
    omega
  · intro opcode data h
    simp [frame, sendMessageHeader, u16le, readUInt16LE]
    omega
  · intro opcode data
    simp [frame, sendMessageHeader, u16le]
  · decide
  · intro data h
    simp [frame, sendMessageHeader, u16le, h]

/-- Witness for the framing theorem: the opcode of the status request frame
reads back as 0x0004. -/
theorem frame_layout_w :
    (0x0004:Nat) < 65536 ∧ readUInt16LE (frame 0x0004 []) 1 = 0x0004 :=
  ⟨by omega, frame_layout.2.2.1 0x0004 [] (by omega)⟩

theorem accumulateInvocations_some (chunks : List (List Nat)) :
    ∀ acc : List Nat, accumulateInvocations (some acc) chunks =
      (List.range chunks.length).map (fun k => acc ++ (chunks.take (k + 1)).flatten) := by
  induction chunks with
  | nil => intro acc; rfl
  | cons c cs ih =>
    intro acc
    rw [accumulateInvocations]
    rw [show dataReceived (some acc) c = acc ++ c from rfl]
    rw [ih (acc ++ c)]
    rw [List.length_cons, List.range_succ_eq_map]
    simp [List.map_map, Function.comp, List.append_assoc]

theorem accumulateInvocations_none (chunks : List (List Nat)) :
    accumulateInvocations none chunks =
      (List.range chunks.length).map (fun k => (chunks.take (k + 1)).flatten) := by
  cases chunks with
  | nil => rfl
  | cons c cs =>
    rw [accumulateInvocations]
    rw [show dataReceived none c = c from rfl]
    rw [accumulateInvocations_some cs c]
    rw [List.length_cons, List.range_succ_eq_map]
    simp [List.map_map, Function.comp, List.append_assoc]

/-- C5: every inbound chunk is appended to the accumulated response (or
initializes it) and the registered predicate is invoked with the full
accumulated buffer so far; for chunks of 200, 200 and 112 bytes the
getUniverseData predicate fires exactly once, after the third chunk, with the
complete 512-byte buffer. -/
theorem accumulation_resolution :
    (∀ (response : Option (List Nat)) (data : List Nat),
      dataReceived response data = response.getD [] ++ data) ∧
    (∀ chunks : List (List Nat), accumulateInvocations none chunks =
      (List.range chunks.length).map (fun k => (chunks.take (k + 1)).flatten)) ∧
    (∀ c1 c2 c3 : List Nat, c1.length = 200 → c2.length = 200 → c3.length = 112 →
      resolveCalls guPredicate [c1, c2, c3] = [c1 ++ c2 ++ c3] ∧
      (c1 ++ c2 ++ c3).length = 512) := by
  refine ⟨?_, accumulateInvocations_none, ?_⟩
  · intro response data
    cases response <;> rfl
  · intro c1 c2 c3 h1 h2 h3
    constructor
    · simp [resolveCalls, accumulateInvocations, dataReceived, guPredicate, h1, h2, h3]
    · simp [h1, h2, h3]

set_option maxRecDepth 4000 in
/-- Witness for the accumulation theorem on three concrete chunks of lengths
200, 200 and 112. -/
theorem accumulation_resolution_w :
    (List.replicate 200 (0:Nat)).length = 200 ∧
    (List.replicate 112 (0:Nat)).length = 112 ∧
    resolveCalls guPredicate
        [List.replicate 200 0, List.replicate 200 0, List.replicate 112 0] =
      [List.replicate 200 (0:Nat) ++ List.replicate 200 0 ++ List.replicate 112 0] ∧
    (List.replicate 200 (0:Nat) ++ List.replicate 200 0 ++ List.replicate 112 0).length = 512 := by
  have h := accumulation_resolution.2.2 (List.replicate 200 0) (List.replicate 200 0)
    (List.replicate 112 0) (by simp) (by simp) (by simp)
  exact ⟨by simp, by simp, h.1, h.2⟩

/-- C6: the getMaskUniverses callback resolves exactly when the accumulated
buffer has reached 2 + 2*count bytes, where count is the little-endian 16-bit
value in the first two bytes, and it resolves with the count little-endian
16-bit universe numbers at offsets 2, 4, ...; on a shorter buffer it returns
without resolving, whatever count value an earlier invocation captured. -/
theorem gmu_resolution (data : List Nat) (universeCount : Nat) :
    (gmuHandler universeCount data).2 =
      if 2 + readUInt16LE data 0 * 2 ≤ data.length then
        some ((List.range (readUInt16LE data 0)).map (fun i => readUInt16LE data (2 + i * 2)))
      else none := by
  simp only [gmuHandler]
  by_cases h2 : 2 ≤ data.length
  · simp only [if_pos h2]
    by_cases hc : 2 + readUInt16LE data 0 * 2 ≤ data.length
    · simp only [if_pos hc]
    · simp only [if_neg hc]
  · have hA : ¬(2 + universeCount * 2 ≤ data.length) := by omega
    have hB : ¬(2 + readUInt16LE data 0 * 2 ≤ data.length) := by omega
    simp only [if_neg h2, if_neg hA, if_neg hB]

/-- Witness for the getMaskUniverses theorem: a complete 2-universe response
parses to those two universe numbers. -/
theorem gmu_resolution_w :
    (gmuHandler 0 [2, 0, 5, 0, 7, 0]).2 = some [5, 7] := by
  rw [gmu_resolution]
  decide

/-- C7: once the accumulated identify text ends with a double line-break, the
call rejects with the invalid-identify-response error when the text fails to
parse or the parsed record has no truthy version field, and resolves with the
parsed record when the version field is present; before the double line-break
it neither resolves nor rejects.  JSON.parse is an oracle parameter. -/
theorem identify_outcome (jsonParse : String → Option IdentifyRecord) (text : String) :
    (jsEndsWith text "\n\n" = false →
      promiseOutcome (identifySettles jsonParse text) = none) ∧
    (jsEndsWith text "\n\n" = true → jsonParse text = none →
      promiseOutcome (identifySettles jsonParse text) =
        some (SettleEvent.rejected "invalid identify response")) ∧
    (∀ r, jsEndsWith text "\n\n" = true → jsonParse text = some r →
      versionTruthy r = false →
      promiseOutcome (identifySettles jsonParse text) =
        some (SettleEvent.rejected "invalid identify response")) ∧
    (∀ r, jsEndsWith text "\n\n" = true → jsonParse text = some r →
      versionTruthy r = true →
      promiseOutcome (identifySettles jsonParse text) = some (SettleEvent.resolved r)) := by
  refine ⟨?_, ?_, ?_, ?_⟩ <;> intros <;> simp_all [identifySettles, promiseOutcome]

/-- Witness for the identify theorem: the sample oracle resolves the
well-formed spec example with version 1.0 and rejects the malformed one. -/
theorem identify_outcome_w :
    jsEndsWith goodIdentifyText "\n\n" = true ∧
    jsonParseSample goodIdentifyText = some { version := some "1.0" } ∧
    versionTruthy { version := some "1.0" } = true ∧
    promiseOutcome (identifySettles jsonParseSample goodIdentifyText) =
      some (SettleEvent.resolved { version := some "1.0" }) ∧
    jsEndsWith "not json\n\n" "\n\n" = true ∧
    jsonParseSample "not json\n\n" = none ∧
    promiseOutcome (identifySettles jsonParseSample "not json\n\n") =
      some (SettleEvent.rejected "invalid identify response") := by
  have hends : jsEndsWith goodIdentifyText "\n\n" = true := by decide
  have hparse : jsonParseSample goodIdentifyText = some { version := some "1.0" } := by
    simp [jsonParseSample]
  have hends2 : jsEndsWith "not json\n\n" "\n\n" = true := by decide
  have hparse2 : jsonParseSample "not json\n\n" = none := by
    simp [jsonParseSample, goodIdentifyText]
  refine ⟨hends, hparse, rfl, ?_, hends2, hparse2, ?_⟩
  · exact (identify_outcome jsonParseSample goodIdentifyText).2.2.2
      { version := some "1.0" } hends hparse rfl
  · exact (identify_outcome jsonParseSample "not json\n\n").2.1 hends2 hparse2

/-- C4 (code evaluation): against an endpoint that always reports an open
error, connect(300) attempts budgets 300, 200, 100, 0 — three retries — and
the attempt at budget 0 rejects with the connection-failed error, settling
the promise; but the handler at budget 0 nevertheless also schedules a
further retry with budget -100 (the reject is not followed by a return),
contradicting the claim that no further attempt is scheduled. -/
theorem connect_retry_exhaustion :
    connectAttemptBudgets 300 = [300, 200, 100, 0] ∧
    connectErrorHandler 0 =
      { rejectsConnectionFailed := true, schedulesRetry := true, retryBudget := -100 } ∧
    (connectErrorHandler 300).rejectsConnectionFailed = false ∧
    (connectErrorHandler 300).schedulesRetry = true := by
  refine ⟨?_, by decide, by decide, rfl⟩
  rw [connectAttemptBudgets]
  norm_num
  rw [connectAttemptBudgets]
  norm_num
  rw [connectAttemptBudgets]
  norm_num
  rw [connectAttemptBudgets]
  norm_num

/-- C9 counterexample: setFramerate(30) sends its framed message without ever
clearing the response buffer, so not every catalog operation clears it. -/
theorem clear_before_send_counterexample :
    DeviceAction.clearResponse ∉ setFramerateTrace 30 := by
  decide

/-- C9 amended: the request/response operations, and the fire-and-forget
writes setUniverseData and setAddressValues, clear the response buffer as
their first action, before the send; the remaining fire-and-forget writes
(setFramerate, createMaskUniverse, deleteMaskUniverse, setMaskUniverseData,
setMaskAddressValues, clearMaskUniverse, patch, unpatch, copyUniverse,
setAddressesToValue, setMaskAddressesToValue) never clear it. -/
theorem clear_before_send_amended :
    (identifyTrace.head? = some DeviceAction.clearResponse) ∧
    (∀ (u : Nat) (data : List Nat),
      (setUniverseDataTrace u data).head? = some DeviceAction.clearResponse) ∧
    (∀ pairs, (setAddressValuesTrace pairs).head? = some DeviceAction.clearResponse) ∧
    (∀ u : Nat, (getUniverseDataTrace u).head? = some DeviceAction.clearResponse) ∧
    (getFramerateTrace.head? = some DeviceAction.clearResponse) ∧
    (getMaskUniversesTrace.head? = some DeviceAction.clearResponse) ∧
    (∀ u : Nat, (getMaskUniverseDataTrace u).head? = some DeviceAction.clearResponse) ∧
    (getPatchesTrace.head? = some DeviceAction.clearResponse) ∧
    (listPortsTrace.head? = some DeviceAction.clearResponse) ∧
    (∀ a, (getValuesByAddressTrace a).head? = some DeviceAction.clearResponse) ∧
    (∀ a, (getMaskValuesByAddressTrace a).head? = some DeviceAction.clearResponse) ∧
    (∀ f : Nat, DeviceAction.clearResponse ∉ setFramerateTrace f) ∧
    (∀ u : Nat, DeviceAction.clearResponse ∉ createMaskUniverseTrace u) ∧
    (∀ u : Nat, DeviceAction.clearResponse ∉ deleteMaskUniverseTrace u) ∧
    (∀ (u : Nat) (mask : Nat → Bool) (data : List Nat),
      DeviceAction.clearResponse ∉ setMaskUniverseDataTrace u mask data) ∧
    (∀ (u : Nat) pairs, DeviceAction.clearResponse ∉ setMaskAddressValuesTrace u pairs) ∧
    (∀ u : Nat, DeviceAction.clearResponse ∉ clearMaskUniverseTrace u) ∧
    (∀ p, DeviceAction.clearResponse ∉ patchTrace p) ∧
    (∀ u : Nat, DeviceAction.clearResponse ∉ unpatchTrace u) ∧
    (∀ s d : Nat, DeviceAction.clearResponse ∉ copyUniverseTrace s d) ∧
    (∀ (u v : Nat) (mask : Nat → Bool),
      DeviceAction.clearResponse ∉ setAddressesToValueTrace u v mask) ∧
    (∀ (u v : Nat) (mask : Nat → Bool),
      DeviceAction.clearResponse ∉ setMaskAddressesToValueTrace u v mask) := by
  refine ⟨rfl, fun u data => rfl, fun pairs => rfl, fun u => rfl, rfl, rfl, fun u => rfl,
    rfl, rfl, fun a => rfl, fun a => rfl,
    ?_, ?_, ?_, ?_, ?_, ?_, ?_, ?_, ?_, ?_, ?_⟩ <;>
  intros <;>
  simp [setFramerateTrace, createMaskUniverseTrace, deleteMaskUniverseTrace,
    setMaskUniverseDataTrace, setMaskAddressValuesTrace, clearMaskUniverseTrace,
    patchTrace, unpatchTrace, copyUniverseTrace, setAddressesToValueTrace,
    setMaskAddressesToValueTrace]

/-- Witness for the amended clearing theorem: setUniverseData(5, []) clears
first, and setFramerate(30) never clears. -/
theorem clear_before_send_amended_w :
    (setUniverseDataTrace 5 []).head? = some DeviceAction.clearResponse ∧
    DeviceAction.clearResponse ∉ setFramerateTrace 30 :=
  ⟨clear_before_send_amended.2.1 5 [], clear_before_send_amended.2.2.2.2.2.2.2.2.2.2.2.1 30⟩

/-- C10: getValuesByAddress and getMaskValuesByAddress each perform exactly
one send, carrying opcode 0x0010 and an empty payload, so the framed message
is the 5 header bytes with a zero length field; the locally built request
buffer is never the payload of any send. -/
theorem values_by_address_sends_empty (addresses : List AddressPackRec)
    (h : addresses ≠ []) :
    getValuesByAddressTrace addresses =
      [DeviceAction.clearResponse, DeviceAction.registerCallback,
        DeviceAction.send 0x0010 []] ∧
    getMaskValuesByAddressTrace addresses =
      [DeviceAction.clearResponse, DeviceAction.registerCallback,
        DeviceAction.send 0x0010 []] ∧
    frame 0x0010 [] = [0x00, 0x10, 0x00, 0x00, 0x00] ∧
    (∀ op payload, DeviceAction.send op payload ∈ getValuesByAddressTrace addresses →
      payload ≠ gvbaBody addresses) ∧
    (∀ op payload, DeviceAction.send op payload ∈ getMaskValuesByAddressTrace addresses →
      payload ≠ gmvbaBody addresses) := by
  refine ⟨rfl, rfl, by decide, ?_, ?_⟩
  · intro op payload hmem
    simp [getValuesByAddressTrace] at hmem
    cases addresses with
    | nil => exact absurd rfl h
    | cons a rest =>
      rw [hmem.2]
      simp [gvbaBody, u16le]
  · intro op payload hmem
    simp [getMaskValuesByAddressTrace] at hmem
    cases addresses with
    | nil => exact absurd rfl h
    | cons a rest =>
      rw [hmem.2]
      simp [gmvbaBody, u16le]

/-- Witness for the empty-payload theorem at a one-entry address list. -/
theorem values_by_address_sends_empty_w :
    ([{ univ := 1, address := 2 }] : List AddressPackRec) ≠ [] ∧
    (∀ op payload,
      DeviceAction.send op payload ∈
        getValuesByAddressTrace [{ univ := 1, address := 2 }] →
      payload ≠ gvbaBody [{ univ := 1, address := 2 }]) := by
  have h : ([{ univ := 1, address := 2 }] : List AddressPackRec) ≠ [] := by simp
  exact ⟨h, (values_by_address_sends_empty [{ univ := 1, address := 2 }] h).2.2.2.1⟩
